import Mathlib

/-!
Shallow embedding of `src/template/_extensions/apimember.py`, a Sphinx
directive extension (`ApiMemberDirective` plus the module-level `setup`
entry point).  The host toolkit (docutils/Sphinx) is treated as a black
box: its nested RST parser is modelled by the abstract `Node.parsedBlock`
constructor, and docutils node objects are modelled by the `Node`
inductive below, keeping exactly the attributes the directive reads or
writes (classes, ids, rubric text, reference target).
-/

namespace ApiMember

/-- Model of a docutils node as manipulated by `apimember.py`.
`parsedBlock lines` stands for the children produced by the host
toolkit's nested RST parser on the given source lines (the parser itself
is outside this repository and is treated as a black box). -/
inductive Node where
  | container (classes : List String) (children : List Node)
  | rubric (text : String) (ids : List String) (classes : List String)
  | paragraph (children : List Node)
  | reference (internal : Bool) (refid : String) (classes : List String)
  | parsedBlock (lines : List String)

/-- The option dictionary of one directive invocation, together with its
body content.  Mirrors `ApiMemberDirective.option_spec`: the options
`type`, `name`, `annotation` (here `annot`), `refid`, `refname`, `depth`
are all optional and all declared with the converter
`directives.unchanged`, so each is carried as its raw string when
present.  `content` models `self.content` (the body lines). -/
structure Descriptor where
  type : Option String
  name : Option String
  annot : Option String
  refid : Option String
  refname : Option String
  depth : Option String
  content : List String
deriving DecidableEq, Repr

/-- Error kinds distinguishable at the host-toolkit boundary:
`optionValidation` is a directive error raised by docutils while running
the `option_spec` converters (before `run` is entered); `intConversion`
is the Python `ValueError` raised by the bare `int(...)` call inside
`ApiMemberDirective.run` (line 48). -/
inductive ErrorKind where
  | optionValidation
  | intConversion
deriving DecidableEq, Repr

/-- Python digit-run parsing for `int(s)`: a nonempty ASCII digit
sequence in which single underscores may appear between digits. -/
def pyDigitsAux : Nat → List Char → Option Nat
  | acc, [] => some acc
  | acc, c :: cs =>
    if c.isDigit then pyDigitsAux (10 * acc + (c.toNat - 48)) cs
    else if c = '_' then
      match cs with
      | c2 :: cs2 =>
        if c2.isDigit then pyDigitsAux (10 * acc + (c2.toNat - 48)) cs2 else none
      | [] => none
    else none

/-- Digit run must start with a digit (no leading underscore). -/
def pyDigits : List Char → Option Nat
  | [] => none
  | c :: cs => if c.isDigit then pyDigitsAux (c.toNat - 48) cs else none

/-- Strip leading and trailing whitespace, as Python `int(str)` does. -/
def pyStrip (cs : List Char) : List Char :=
  ((cs.dropWhile Char.isWhitespace).reverse.dropWhile Char.isWhitespace).reverse

/-- Model of Python `int(s)` on a string: optional surrounding
whitespace, optional sign, then a digit run.  Returns `none` where the
Python call raises `ValueError`. -/
def pyInt (s : String) : Option Int :=
  match pyStrip s.data with
  | '-' :: cs => (pyDigits cs).map (fun n => -(n : Int))
  | '+' :: cs => (pyDigits cs).map (fun n => (n : Int))
  | cs => (pyDigits cs).map (fun n => (n : Int))

/-- Line 48: `depth = int(self.options.get('depth', 0))`.  When the
option is absent the Python default is the integer `0` (and `int 0 = 0`);
when present the raw string is converted by `int`. -/
def pyDepth : Option String → Option Int
  | none => some 0
  | some s => pyInt s

/-- `directives.unchanged`: the docutils converter used for every option
in `option_spec`; it returns the raw value and never raises. -/
def unchanged (v : String) : Except ErrorKind String :=
  Except.ok v

/-- Run a converter over an optional option value (absent options are
not converted by docutils). -/
def validateOpt (f : String → Except ErrorKind String) :
    Option String → Except ErrorKind (Option String)
  | none => Except.ok none
  | some v => (f v).map some

/-- The docutils option-validation pass for this directive: each option
in `option_spec` is run through its converter (`directives.unchanged`
for all six), a failure being reported as a directive error before
`run` is entered. -/
def validateOptions (d : Descriptor) : Except ErrorKind Descriptor := do
  let t ← validateOpt unchanged d.type
  let n ← validateOpt unchanged d.name
  let a ← validateOpt unchanged d.annot
  let ri ← validateOpt unchanged d.refid
  let rn ← validateOpt unchanged d.refname
  let dp ← validateOpt unchanged d.depth
  pure { type := t, name := n, annot := a, refid := ri, refname := rn,
         depth := dp, content := d.content }

/-- `make_div_node(self, classname, lines)`: a container tagged with the
single class `classname`, extended with the nodes the host parser
produces from `lines` (abstracted as one `parsedBlock`).  Returns a
one-element list, as the source does. -/
def make_div_node (classname : String) (lines : List String) : List Node :=
  [Node.container [classname] [Node.parsedBlock lines]]

/-- Lines 50-60: when `refid` is present, the hidden rubric emitted
before the entry.  Its text is
`self.options.get('refname', self.options.get('name', self.options['refid']))`,
its ids attribute is set to the single generated id
`f"api-member-{uuid.uuid4().hex}"` (the fresh hex string is a parameter
here), and the class `api-member-rubric-hidden` is appended to the fresh
rubric's empty class list. -/
def hiddenRubricNodes (d : Descriptor) (uuidHex : String) : List Node :=
  match d.refid with
  | some r =>
    [Node.rubric
      (match d.refname with
       | some rn => rn
       | none => match d.name with
         | some n => n
         | none => r)
      ["api-member-" ++ uuidHex]
      ["api-member-rubric-hidden"]]
  | none => []

/-- Lines 62-69: the class list of the outer `apiMemberNode` container:
`api-member-node`, plus `api-member-depth-{depth}` when `depth > 0`,
plus `api-member-hide-bullet-point` when `depth % 2 == 1` (Python `%`
on a positive modulus agrees with `Int.emod`). -/
def entryClassesFor (depth : Int) : List String :=
  (["api-member-node"] ++
    (if 0 < depth then ["api-member-depth-" ++ toString depth] else [])) ++
  (if depth % 2 = 1 then ["api-member-hide-bullet-point"] else [])

/-- Lines 71-87: the `apiMemberDefinition` container: class
`api-member-definition`, extended in order with the bullet div, then a
name / type / annotation div for each option present, then (when
`refid` is present) a paragraph holding an internal `headerlink`
reference targeting that refid. -/
def apiMemberDefinitionNode (d : Descriptor) : Node :=
  Node.container ["api-member-definition"]
    (make_div_node "api-member-bullet" ["-"] ++
     (match d.name with
      | some n => make_div_node "api-member-name" [n]
      | none => []) ++
     (match d.type with
      | some t => make_div_node "api-member-type" [t]
      | none => []) ++
     (match d.annot with
      | some a => make_div_node "api-member-annotation" [a]
      | none => []) ++
     (match d.refid with
      | some r => [Node.paragraph [Node.reference true r ["headerlink"]]]
      | none => []))

/-- Lines 91-95: when the body is nonempty, the `apiMemberDescription`
container appended after the definition, holding the host parser's
output for the body lines. -/
def descriptionNodes (d : Descriptor) : List Node :=
  if 0 < d.content.length then
    [Node.container ["api-member-description"] [Node.parsedBlock d.content]]
  else []

/-- Lines 62-95: the outer `apiMemberNode` entry container: the
depth-derived classes, the definition child, then the optional
description child. -/
def apiMemberEntryNode (d : Descriptor) (depth : Int) : Node :=
  Node.container (entryClassesFor depth)
    (apiMemberDefinitionNode d :: descriptionNodes d)

/-- `ApiMemberDirective.run` (lines 45-99).  The first statement,
`depth = int(self.options.get('depth', 0))`, raises a Python
`ValueError` on a malformed `depth` string; nothing after it can fail.
On success the returned list is the optional hidden rubric followed by
the entry container. -/
def run (d : Descriptor) (uuidHex : String) : Except ErrorKind (List Node) :=
  match pyDepth d.depth with
  | none => Except.error ErrorKind.intConversion
  | some depth =>
    Except.ok (hiddenRubricNodes d uuidHex ++ [apiMemberEntryNode d depth])

/-- One full directive invocation as the host toolkit performs it: run
the `option_spec` converters, then `run`. -/
def invoke (d : Descriptor) (uuidHex : String) : Except ErrorKind (List Node) := do
  let v ← validateOptions d
  run v uuidHex

/-- Abstract token for the directive handler class registered by
`setup`. -/
inductive DirectiveHandler where
  | apiMember
deriving DecidableEq, Repr

/-- The slice of Sphinx application state the extension touches: the
table of registered directives. -/
structure SphinxApp where
  registeredDirectives : List (String × DirectiveHandler)
deriving DecidableEq, Repr

/-- The capability dictionary returned by `setup`. -/
structure SetupResult where
  version : String
  parallel_read_safe : Bool
  parallel_write_safe : Bool
deriving DecidableEq, Repr

/-- `app.add_directive(name, cls)`: records the registration. -/
def add_directive (app : SphinxApp) (nm : String) (h : DirectiveHandler) :
    SphinxApp :=
  { registeredDirectives := app.registeredDirectives ++ [(nm, h)] }

/-- `setup(app)` (lines 102-109): registers `api-member` and returns
the capability dictionary. -/
def setup (app : SphinxApp) : SphinxApp × SetupResult :=
  (add_directive app "api-member" DirectiveHandler.apiMember,
   { version := "0.1", parallel_read_safe := true, parallel_write_safe := true })

/-! ### Observation helpers used by the theorems -/

/-- The class list of a node. -/
def classesOf : Node → List String
  | Node.container cs _ => cs
  | Node.rubric _ _ cs => cs
  | Node.paragraph _ => []
  | Node.reference _ _ cs => cs
  | Node.parsedBlock _ => []

/-- The child list of a node. -/
def childrenOf : Node → List Node
  | Node.container _ ch => ch
  | Node.paragraph ch => ch
  | _ => []

/-- The entry container of a returned node list (the main entry is
always the last returned node). -/
def entryOf (ns : List Node) : Option Node :=
  ns.getLast?

/-- The definition container: first child of the entry container. -/
def definitionOf (ns : List Node) : Option Node :=
  (entryOf ns).bind fun e => (childrenOf e).head?

/-- Whether a node is a rubric (hidden label) node. -/
def isRubricNode : Node → Bool
  | Node.rubric _ _ _ => true
  | _ => false

/-- The visible text of the first returned node when it is a rubric. -/
def firstRubricText : List Node → Option String
  | Node.rubric t _ _ :: _ => some t
  | _ => none

/-- The ids attribute of the first returned node when it is a rubric. -/
def firstRubricIds : List Node → List String
  | Node.rubric _ ids _ :: _ => ids
  | _ => []

/-- Whether a node is an internal reference carrying the `headerlink`
class. -/
def isHeaderlinkRef : Node → Bool
  | Node.reference _ _ cs => cs.contains "headerlink"
  | _ => false

/-- Whether a node is a paragraph containing a headerlink reference. -/
def isHeaderlinkPara : Node → Bool
  | Node.paragraph ch => ch.any isHeaderlinkRef
  | _ => false

/-- Whether a class name is a depth-indentation class. -/
def isDepthClass (c : String) : Bool :=
  "api-member-depth-".data.isPrefixOf c.data

/-- Erase the generated unique identifier (the rubric ids) from a node,
leaving all other structure intact. -/
def stripRubricIds : Node → Node
  | Node.rubric t _ cs => Node.rubric t [] cs
  | n => n

/-- Erase generated identifiers across a returned node list. -/
def stripIdsList (ns : List Node) : List Node :=
  ns.map stripRubricIds

/-- Classify a definition sub-node by its distinguishing class (a
paragraph — the headerlink affordance — is tagged `para`). -/
def subTag : Node → String
  | Node.container cs _ => cs.headD ""
  | Node.paragraph _ => "para"
  | _ => ""

/-! ### Concrete descriptors used to instantiate the theorems -/

/-- An invocation with no options and no body. -/
def emptyDescriptor : Descriptor :=
  { type := none, name := none, annot := none, refid := none,
    refname := none, depth := none, content := [] }

/-- An invocation whose `depth` option is not an integer literal. -/
def wBadDepth : Descriptor :=
  { emptyDescriptor with depth := some "x" }

/-- An invocation carrying only a `refid`. -/
def wRef : Descriptor :=
  { emptyDescriptor with refid := some "api-func-parameter" }

/-- An invocation with a negative `depth`. -/
def wNeg : Descriptor :=
  { emptyDescriptor with depth := some "-1" }

/-- A fully populated invocation. -/
def wFull : Descriptor :=
  { type := some "string", name := some "foo", annot := some "Optional",
    refid := some "api-x", refname := some "display", depth := some "2",
    content := ["body line"] }

/-- A refid-less invocation with a (dangling) `refname`. -/
def wNoRefA : Descriptor :=
  { emptyDescriptor with refname := some "dangling" }

end ApiMember

namespace ApiMember

/-! ### Helper lemmas -/

theorem validateOpt_unchanged (o : Option String) :
    validateOpt unchanged o = Except.ok o := by
  cases o <;> rfl

theorem validateOptions_ok (d : Descriptor) :
    validateOptions d = Except.ok d := by
  rw [validateOptions, validateOpt_unchanged, validateOpt_unchanged,
    validateOpt_unchanged, validateOpt_unchanged, validateOpt_unchanged,
    validateOpt_unchanged]
  rfl

theorem invoke_eq_run (d : Descriptor) (u : String) :
    invoke d u = run d u := by
  rw [invoke, validateOptions_ok]
  rfl

theorem run_ok_of_depth {d : Descriptor} {k : Int} (u : String)
    (hk : pyDepth d.depth = some k) :
    run d u = Except.ok (hiddenRubricNodes d u ++ [apiMemberEntryNode d k]) := by
  simp [run, hk]

theorem entryOf_output (d : Descriptor) (u : String) (k : Int) :
    entryOf (hiddenRubricNodes d u ++ [apiMemberEntryNode d k]) =
      some (apiMemberEntryNode d k) := by
  simp [entryOf, List.getLast?_concat]

theorem definitionOf_output (d : Descriptor) (u : String) (k : Int) :
    definitionOf (hiddenRubricNodes d u ++ [apiMemberEntryNode d k]) =
      some (apiMemberDefinitionNode d) := by
  simp [definitionOf, entryOf, List.getLast?_concat, apiMemberEntryNode,
    childrenOf]

theorem string_append_cancel {s t u : String} (h : s ++ t = s ++ u) : t = u := by
  have h2 : (s ++ t).data = (s ++ u).data := congrArg String.data h
  simp [String.data_append] at h2
  exact String.ext h2

theorem depthClass_ne_hide (t : String) :
    ("api-member-depth-" ++ t) ≠ "api-member-hide-bullet-point" := by
  intro h
  have h2 : ("api-member-depth-" ++ t).data =
      "api-member-hide-bullet-point".data := congrArg String.data h
  rw [String.data_append] at h2
  have h3 := congrArg (List.take 17) h2
  rw [List.take_append_of_le_length (by decide)] at h3
  revert h3
  decide

theorem hiddenRubricNodes_spec (d : Descriptor) (u r : String)
    (hr : d.refid = some r) :
    hiddenRubricNodes d u =
      [Node.rubric
        (match d.refname with
         | some rn => rn
         | none => match d.name with | some n => n | none => r)
        ["api-member-" ++ u] ["api-member-rubric-hidden"]] := by
  simp [hiddenRubricNodes, hr]

theorem hiddenRubricNodes_none (d : Descriptor) (u : String)
    (hr : d.refid = none) :
    hiddenRubricNodes d u = [] := by
  simp [hiddenRubricNodes, hr]

theorem entryClassesFor_head (k : Int) :
    (entryClassesFor k).head? = some "api-member-node" := by
  simp [entryClassesFor]

/-! ### Claim theorems -/

/-- C1 counterexample: on a descriptor whose `depth` option is the
non-integer string `"x"`, the invocation does fail, but with the
`int(...)` conversion error raised inside `run`, not with an error from
the host toolkit's option-validation machinery (every converter in
`option_spec` is `directives.unchanged`, which never fails). -/
theorem C1_counterexample :
    invoke wBadDepth "u0" = Except.error ErrorKind.intConversion ∧
    ¬ invoke wBadDepth "u0" = Except.error ErrorKind.optionValidation := by
  refine ⟨rfl, fun h => ?_⟩
  have h0 : (Except.error ErrorKind.intConversion : Except ErrorKind (List Node))
      = Except.error ErrorKind.optionValidation :=
    (show invoke wBadDepth "u0" = Except.error ErrorKind.intConversion from
      rfl).symm.trans h
  injection h0 with h2
  exact ErrorKind.noConfusion h2

/-- C1 (amended): a full invocation (option validation followed by
`run`) fails exactly on descriptors whose `depth` option is present and
is not a valid integer literal, and the failure is the integer-conversion
error raised inside `run` (a Python `ValueError` from `int(...)`), not a
directive error from the option-validation machinery; this conversion
failure is the only failure mode the component introduces. -/
theorem C1_failure_modes (d : Descriptor) (u : String) :
    (invoke d u = Except.error ErrorKind.intConversion ↔
      ∃ s, d.depth = some s ∧ pyInt s = none) ∧
    ∀ e, invoke d u = Except.error e → e = ErrorKind.intConversion := by
  rw [invoke_eq_run]
  cases hd : d.depth with
  | none => simp [run, pyDepth, hd]
  | some s =>
    cases hp : pyInt s with
    | none => simp [run, pyDepth, hd, hp]
    | some k => simp [run, pyDepth, hd, hp]

/-- Witness for C1 at the concrete bad-depth descriptor. -/
theorem C1_failure_modes_witness :
    (invoke wBadDepth "u0" = Except.error ErrorKind.intConversion ↔
      ∃ s, wBadDepth.depth = some s ∧ pyInt s = none) ∧
    ∀ e, invoke wBadDepth "u0" = Except.error e →
      e = ErrorKind.intConversion :=
  C1_failure_modes wBadDepth "u0"

/-- C2: for a successfully parsed `depth` value `k` (`k = 0` when the
option is absent), the entry container carries exactly the base class
when `k = 0`; carries the bullet-suppression class when `k` is odd; and
for even `k > 0` carries the depth class but not the suppression
class. -/
theorem C2_depth_style_classes (d : Descriptor) (u : String) (k : Int)
    (hk : pyDepth d.depth = some k) :
    ∃ ns e, run d u = Except.ok ns ∧ entryOf ns = some e ∧
      (k = 0 → classesOf e = ["api-member-node"]) ∧
      (Odd k → "api-member-hide-bullet-point" ∈ classesOf e) ∧
      (Even k → 0 < k →
        ("api-member-depth-" ++ toString k) ∈ classesOf e ∧
        "api-member-hide-bullet-point" ∉ classesOf e) := by
  refine ⟨_, _, run_ok_of_depth u hk, entryOf_output d u k, ?_, ?_, ?_⟩
  · intro h0
    subst h0
    rfl
  · intro hodd
    have h1 : k % 2 = 1 := Int.odd_iff.mp hodd
    simp [apiMemberEntryNode, classesOf, entryClassesFor, h1]
  · intro heven hpos
    have h1 : k % 2 = 0 := Int.even_iff.mp heven
    have h2 : ¬ (k % 2 = 1) := by omega
    constructor
    · simp [apiMemberEntryNode, classesOf, entryClassesFor, hpos, h2]
    · simp [apiMemberEntryNode, classesOf, entryClassesFor, hpos, h2]
      exact fun hh => depthClass_ne_hide (toString k) hh.symm

/-- Witness for C2 at the empty descriptor (absent `depth`, so `k = 0`). -/
theorem C2_depth_style_classes_witness :
    pyDepth emptyDescriptor.depth = some 0 ∧
    (∃ ns e, run emptyDescriptor "u0" = Except.ok ns ∧ entryOf ns = some e ∧
      ((0 : Int) = 0 → classesOf e = ["api-member-node"]) ∧
      (Odd (0 : Int) → "api-member-hide-bullet-point" ∈ classesOf e) ∧
      (Even (0 : Int) → 0 < (0 : Int) →
        ("api-member-depth-" ++ toString (0 : Int)) ∈ classesOf e ∧
        "api-member-hide-bullet-point" ∉ classesOf e)) :=
  ⟨rfl, C2_depth_style_classes emptyDescriptor "u0" 0 rfl⟩

/-- C3: with `refid` present, the hidden label node's visible text is
`refname` when given, else `name` when given, else the `refid` itself. -/
theorem C3_rubric_text (d : Descriptor) (u r : String) (k : Int)
    (hr : d.refid = some r) (hk : pyDepth d.depth = some k) :
    ∃ ns, run d u = Except.ok ns ∧
      firstRubricText ns =
        some (match d.refname with
              | some rn => rn
              | none =>
                match d.name with
                | some n => n
                | none => r) := by
  refine ⟨_, run_ok_of_depth u hk, ?_⟩
  simp [hiddenRubricNodes, hr, firstRubricText]

/-- Witness for C3: `refid` set, neither `refname` nor `name` set — the
visible text is the `refid` itself. -/
theorem C3_rubric_text_witness :
    wRef.refid = some "api-func-parameter" ∧ pyDepth wRef.depth = some 0 ∧
    (∃ ns, run wRef "u0" = Except.ok ns ∧
      firstRubricText ns = some "api-func-parameter") :=
  ⟨rfl, rfl, C3_rubric_text wRef "u0" "api-func-parameter" 0 rfl rfl⟩

/-- C4: without `refid`, no hidden label node is emitted and the
definition container contains no headerlink paragraph. -/
theorem C4_no_refid_no_label (d : Descriptor) (u : String) (k : Int)
    (hr : d.refid = none) (hk : pyDepth d.depth = some k) :
    ∃ ns defn, run d u = Except.ok ns ∧ definitionOf ns = some defn ∧
      (∀ n ∈ ns, isRubricNode n = false) ∧
      (∀ c ∈ childrenOf defn, isHeaderlinkPara c = false) := by
  refine ⟨_, _, run_ok_of_depth u hk, definitionOf_output d u k, ?_, ?_⟩
  · intro n hn
    simp [hiddenRubricNodes, hr] at hn
    subst hn
    rfl
  · intro c hc
    cases hname : d.name <;> cases htype : d.type <;> cases hannot : d.annot <;>
      simp [apiMemberDefinitionNode, childrenOf, hr, hname, htype, hannot,
        make_div_node] at hc <;>
      rcases hc with rfl | rfl | rfl | rfl <;> rfl

/-- Witness for C4 at a refid-less descriptor carrying a `refname`. -/
theorem C4_no_refid_no_label_witness :
    wNoRefA.refid = none ∧ pyDepth wNoRefA.depth = some 0 ∧
    (∃ ns defn, run wNoRefA "u0" = Except.ok ns ∧
      definitionOf ns = some defn ∧
      (∀ n ∈ ns, isRubricNode n = false) ∧
      (∀ c ∈ childrenOf defn, isHeaderlinkPara c = false)) :=
  ⟨rfl, rfl, C4_no_refid_no_label wNoRefA "u0" 0 rfl rfl⟩

/-- C5: the returned list is `[hidden label, entry container]` (exactly
two nodes, label first) when `refid` is present, and exactly the entry
container alone when `refid` is absent; the entry container is the
container whose first class is `api-member-node`. -/
theorem C5_return_shape (d : Descriptor) (u : String) (k : Int)
    (hk : pyDepth d.depth = some k) :
    ∃ ns, run d u = Except.ok ns ∧
      ((∀ r, d.refid = some r →
        ns.length = 2 ∧
        (∃ t ids cs, ns.head? = some (Node.rubric t ids cs)) ∧
        (∃ cs ch, ns.getLast? = some (Node.container cs ch) ∧
          cs.head? = some "api-member-node")) ∧
       (d.refid = none →
        ns.length = 1 ∧
        (∃ cs ch, ns.head? = some (Node.container cs ch) ∧
          cs.head? = some "api-member-node"))) := by
  refine ⟨_, run_ok_of_depth u hk, ?_, ?_⟩
  · intro r hr
    rw [hiddenRubricNodes_spec d u r hr]
    exact ⟨rfl, ⟨_, _, _, rfl⟩,
      entryClassesFor k, apiMemberDefinitionNode d :: descriptionNodes d,
      by simp [List.getLast?_concat, apiMemberEntryNode],
      entryClassesFor_head k⟩
  · intro hr
    rw [hiddenRubricNodes_none d u hr]
    exact ⟨rfl,
      entryClassesFor k, apiMemberDefinitionNode d :: descriptionNodes d,
      rfl, entryClassesFor_head k⟩

/-- Witness for C5 at the refid-carrying descriptor. -/
theorem C5_return_shape_witness :
    pyDepth wRef.depth = some 0 ∧
    (∃ ns, run wRef "u0" = Except.ok ns ∧
      ((∀ r, wRef.refid = some r →
        ns.length = 2 ∧
        (∃ t ids cs, ns.head? = some (Node.rubric t ids cs)) ∧
        (∃ cs ch, ns.getLast? = some (Node.container cs ch) ∧
          cs.head? = some "api-member-node")) ∧
       (wRef.refid = none →
        ns.length = 1 ∧
        (∃ cs ch, ns.head? = some (Node.container cs ch) ∧
          cs.head? = some "api-member-node")))) :=
  ⟨rfl, C5_return_shape wRef "u0" 0 rfl⟩

/-- C6: the definition container's children are, in order: the bullet
div; a name div iff `name` is present; a type div iff `type` is present;
an annotation div iff `annotation` is present; and, iff `refid` is
present, a final paragraph containing an internal headerlink reference
targeting that refid. -/
theorem C6_definition_children (d : Descriptor) (u : String) (k : Int)
    (hk : pyDepth d.depth = some k) :
    ∃ ns defn, run d u = Except.ok ns ∧ definitionOf ns = some defn ∧
      (childrenOf defn).map subTag =
        ["api-member-bullet"] ++
        (if d.name.isSome then ["api-member-name"] else []) ++
        (if d.type.isSome then ["api-member-type"] else []) ++
        (if d.annot.isSome then ["api-member-annotation"] else []) ++
        (if d.refid.isSome then ["para"] else []) ∧
      (∀ r, d.refid = some r →
        ∃ ps, (childrenOf defn).getLast? = some (Node.paragraph ps) ∧
          Node.reference true r ["headerlink"] ∈ ps) := by
  refine ⟨_, _, run_ok_of_depth u hk, definitionOf_output d u k, ?_, ?_⟩
  · cases hname : d.name <;> cases htype : d.type <;> cases hannot : d.annot <;>
      cases hrf : d.refid <;>
      simp [apiMemberDefinitionNode, childrenOf, hname, htype, hannot, hrf,
        make_div_node, subTag]
  · intro r hrf
    refine ⟨[Node.reference true r ["headerlink"]], ?_, ?_⟩
    · cases hname : d.name <;> cases htype : d.type <;> cases hannot : d.annot <;>
        simp [apiMemberDefinitionNode, childrenOf, hname, htype, hannot, hrf,
          make_div_node, List.getLast?_concat]
    · simp

/-- Witness for C6 at the fully populated descriptor. -/
theorem C6_definition_children_witness :
    pyDepth wFull.depth = some 2 ∧
    (∃ ns defn, run wFull "u0" = Except.ok ns ∧ definitionOf ns = some defn ∧
      (childrenOf defn).map subTag =
        ["api-member-bullet"] ++
        (if wFull.name.isSome then ["api-member-name"] else []) ++
        (if wFull.type.isSome then ["api-member-type"] else []) ++
        (if wFull.annot.isSome then ["api-member-annotation"] else []) ++
        (if wFull.refid.isSome then ["para"] else []) ∧
      (∀ r, wFull.refid = some r →
        ∃ ps, (childrenOf defn).getLast? = some (Node.paragraph ps) ∧
          Node.reference true r ["headerlink"] ∈ ps)) :=
  ⟨rfl, C6_definition_children wFull "u0" 2 rfl⟩

/-- C7: two invocations on the same descriptor with distinct generated
identifiers produce output trees that are structurally identical once
the generated identifier (the rubric ids) is erased, while the hidden
label's ids themselves differ. -/
theorem C7_idempotence_mod_id (d : Descriptor) (u1 u2 : String) (k : Int)
    (hk : pyDepth d.depth = some k) (hu : u1 ≠ u2) :
    ∃ ns1 ns2, run d u1 = Except.ok ns1 ∧ run d u2 = Except.ok ns2 ∧
      stripIdsList ns1 = stripIdsList ns2 ∧
      (∀ r, d.refid = some r → firstRubricIds ns1 ≠ firstRubricIds ns2) := by
  refine ⟨_, _, run_ok_of_depth u1 hk, run_ok_of_depth u2 hk, ?_, ?_⟩
  · cases hrf : d.refid with
    | none =>
      rw [hiddenRubricNodes_none d u1 hrf, hiddenRubricNodes_none d u2 hrf]
    | some r =>
      rw [hiddenRubricNodes_spec d u1 r hrf, hiddenRubricNodes_spec d u2 r hrf]
      rfl
  · intro r hrf
    rw [hiddenRubricNodes_spec d u1 r hrf, hiddenRubricNodes_spec d u2 r hrf]
    intro h
    simp [firstRubricIds] at h
    exact hu (string_append_cancel h)

/-- Witness for C7 at the refid-carrying descriptor with two distinct
identifiers. -/
theorem C7_idempotence_mod_id_witness :
    pyDepth wRef.depth = some 0 ∧ "a" ≠ "b" ∧
    (∃ ns1 ns2, run wRef "a" = Except.ok ns1 ∧ run wRef "b" = Except.ok ns2 ∧
      stripIdsList ns1 = stripIdsList ns2 ∧
      (∀ r, wRef.refid = some r → firstRubricIds ns1 ≠ firstRubricIds ns2)) :=
  ⟨rfl, by decide, C7_idempotence_mod_id wRef "a" "b" 0 rfl (by decide)⟩

/-- C8: `setup` registers the `api-member` directive on every
application and returns the capability dictionary with version `0.1`
and both parallel-safety flags set to `True`. -/
theorem C8_setup_registration (app : SphinxApp) :
    ("api-member", DirectiveHandler.apiMember) ∈
      (setup app).1.registeredDirectives ∧
    (setup app).2 =
      { version := "0.1", parallel_read_safe := true,
        parallel_write_safe := true } := by
  refine ⟨?_, rfl⟩
  simp [setup, add_directive]

/-- C9: a negative parsed `depth` is accepted: the run succeeds, the
entry container carries no depth-indentation class (the `depth > 0`
guard fails), and it carries the bullet-suppression class exactly when
the value is odd (Python `%` with modulus 2, i.e. `Int.emod`, yields 1
on negative odd values). -/
theorem C9_negative_depth (d : Descriptor) (u s : String) (k : Int)
    (hs : d.depth = some s) (hp : pyInt s = some k) (hneg : k < 0) :
    ∃ ns e, run d u = Except.ok ns ∧ entryOf ns = some e ∧
      (∀ c ∈ classesOf e, isDepthClass c = false) ∧
      ("api-member-hide-bullet-point" ∈ classesOf e ↔ Odd k) := by
  have hk : pyDepth d.depth = some k := by simp [pyDepth, hs, hp]
  have hnpos : ¬ 0 < k := by omega
  refine ⟨_, _, run_ok_of_depth u hk, entryOf_output d u k, ?_, ?_⟩
  · intro c hc
    by_cases hpar : k % 2 = 1 <;>
      simp [apiMemberEntryNode, classesOf, entryClassesFor, hnpos, hpar] at hc
    · rcases hc with rfl | rfl <;> rfl
    · rcases hc with rfl
      rfl
  · by_cases hpar : k % 2 = 1 <;>
      simp [apiMemberEntryNode, classesOf, entryClassesFor, hnpos, hpar,
        Int.odd_iff]

/-- Witness for C9 at `depth = "-1"`. -/
theorem C9_negative_depth_witness :
    wNeg.depth = some "-1" ∧ pyInt "-1" = some (-1) ∧ (-1 : Int) < 0 ∧
    (∃ ns e, run wNeg "u0" = Except.ok ns ∧ entryOf ns = some e ∧
      (∀ c ∈ classesOf e, isDepthClass c = false) ∧
      ("api-member-hide-bullet-point" ∈ classesOf e ↔ Odd (-1 : Int))) :=
  ⟨rfl, by decide, by decide,
    C9_negative_depth wNeg "u0" "-1" (-1) rfl (by decide) (by decide)⟩

/-- C10: for two refid-less descriptors that agree on every field other
than `refname`, the outputs are identical node lists: `refname` has no
observable effect without `refid`. -/
theorem C10_refname_inert (d1 d2 : Descriptor) (u1 u2 : String)
    (h1 : d1.refid = none) (h2 : d2.refid = none)
    (hsame : { d1 with refname := none } = { d2 with refname := none }) :
    run d1 u1 = run d2 u2 := by
  obtain ⟨t1, n1, a1, r1, rn1, dp1, c1⟩ := d1
  obtain ⟨t2, n2, a2, r2, rn2, dp2, c2⟩ := d2
  replace h1 : r1 = none := h1
  replace h2 : r2 = none := h2
  subst h1
  subst h2
  injection hsame with e1 e2 e3 e4 e5 e6 e7
  subst e1
  subst e2
  subst e3
  subst e6
  subst e7
  cases hpd : pyDepth dp1 with
  | none => simp [run, hpd]
  | some k =>
    simp [run, hpd, hiddenRubricNodes, apiMemberEntryNode,
      apiMemberDefinitionNode, descriptionNodes]

/-- Witness for C10: a dangling `refname` against its absence. -/
theorem C10_refname_inert_witness :
    wNoRefA.refid = none ∧ emptyDescriptor.refid = none ∧
    ({ wNoRefA with refname := none } =
      { emptyDescriptor with refname := none }) ∧
    run wNoRefA "a" = run emptyDescriptor "b" :=
  ⟨rfl, rfl, rfl,
    C10_refname_inert wNoRefA emptyDescriptor "a" "b" rfl rfl rfl⟩

end ApiMember
